import Mathlib
/-!
Shallow embedding of the order-commitment / payment-reconciliation core of the
delivery-platform backend.

Sources embedded here:
* `backend/models/Order.js` (src/unnamed/part_004): the persisted Order schema.
  Note that the schema declares no `itemsPrice` path and no `assignedTo` path;
  Mongoose (strict mode, the default) silently drops such paths on save, which
  we model with an explicit `OrderDoc` (the in-memory document handlers build)
  and `OrderDoc.persist` (the record that actually reaches the database).
* `POST /api/orders` from src/unnamed/part_001 (`createOrder` below): the
  revision with server-side price computation, price verification, stock check
  and commit-time stock decrement, all inside one transaction.
* `POST /api/orders` from src/unnamed/part_002 (`createOrderNoPriceCheck`):
  the earlier revision that checks stock but performs no price verification,
  persists client-supplied order items and prices, and decrements nothing.
* `POST /api/payments/webhook` from src/backend/routes/orderRoutes.js
  (`paymentWebhook`): signature verification, duplicate-delivery check on
  `isPaid`, payment fields, status to Processing, and a stock-reduction loop
  that skips order lines whose product no longer exists.
* `PUT /api/orders/:id/status` from src/backend/routes/orderRoutes.js
  (`updateOrderStatus`): agent-assignment check on `deliveryAgent` and the
  `deliveredAt` set-once / clear management.
* `PUT /api/orders/:id/status` from src/unnamed/part_001
  (`updateOrderStatusRev2`): admin branch, agent branch restricted to three
  statuses, assignment check reading the (never persisted) `assignedTo` path,
  email notification fired only when the status value actually changed.
* `PUT /api/orders/:id/accept` and `PUT /api/orders/:id/assign-agent` from
  src/backend/routes/orderRoutes.js (`acceptOrder`, `assignAgent`).

Numbers: JS numbers are modelled as `ℚ` (prices) and `ℤ` (stock quantities);
`Number.prototype.toFixed(2)` on the positive amounts involved is modelled by
`toFixed2` (round to the nearest hundredth, ties upward, as ECMA-262 picks the
larger candidate on a tie). Mongo object ids are modelled as `ℕ`.
Transactions: every handler is a function from the database state to a result
plus the next database state; an aborted transaction returns the input state
unchanged.
-/
namespace DeliveryPlatform

/-- The `orderStatus` enum of the Order schema. -/
inductive OrderStatus
  | pending
  | processing
  | outForDelivery
  | delivered
  | cancelled
deriving DecidableEq

/-- Actor roles as supplied by the auth middleware (`req.user.role`). -/
inductive Role
  | customer
  | deliveryAgent
  | admin
deriving DecidableEq

/-- An authenticated actor (`req.user`). -/
structure Actor where
  id : ℕ
  role : Role
deriving DecidableEq

/-- A Product record (backend/models/Product.js): authoritative price,
stock quantity, and the fields the commit path reads. -/
structure Product where
  name : String
  price : ℚ
  stockQuantity : ℤ
  images : List String
deriving DecidableEq

/-- An embedded order line (`orderItemSchema` in backend/models/Order.js). -/
structure OrderItem where
  name : String
  quantity : ℕ
  image : String
  price : ℚ
  product : ℕ
deriving DecidableEq

/-- The `paymentResult` subdocument of the Order schema. -/
structure PaymentResult where
  id : String
  status : String
  update_time : ℕ
  email_address : String
deriving DecidableEq

/-- The `shippingAddress` subdocument of the Order schema. -/
structure ShippingAddress where
  address : String
  city : String
  postalCode : String
  country : String
  phone : String
deriving DecidableEq

/-- The persisted Order record: exactly the paths declared by `orderSchema`
in backend/models/Order.js (src/unnamed/part_004).  The schema declares
`taxPrice`, `shippingPrice` and `totalPrice` but no `itemsPrice` path, and
`deliveryAgent` but no `assignedTo` path. -/
structure Order where
  user : ℕ
  orderItems : List OrderItem
  shippingAddress : ShippingAddress
  paymentMethod : String
  paymentResult : Option PaymentResult := none
  taxPrice : ℚ := 0
  shippingPrice : ℚ := 0
  totalPrice : ℚ := 0
  isPaid : Bool := false
  paidAt : Option ℕ := none
  isDelivered : Bool := false
  deliveredAt : Option ℕ := none
  orderStatus : OrderStatus := .pending
  deliveryAgent : Option ℕ := none
deriving DecidableEq

/-- The in-memory Mongoose document as the route handlers build and mutate it:
all schema paths plus the non-schema paths some revisions set (`itemsPrice`,
`assignedTo`, `deliveryInstructions`).  Mongoose strict mode keeps non-schema
paths out of the persisted record (see `OrderDoc.persist`). -/
structure OrderDoc where
  user : ℕ
  orderItems : List OrderItem
  shippingAddress : ShippingAddress
  paymentMethod : String
  paymentResult : Option PaymentResult := none
  itemsPrice : ℚ := 0
  taxPrice : ℚ := 0
  shippingPrice : ℚ := 0
  totalPrice : ℚ := 0
  isPaid : Bool := false
  paidAt : Option ℕ := none
  isDelivered : Bool := false
  deliveredAt : Option ℕ := none
  orderStatus : OrderStatus := .pending
  deliveryAgent : Option ℕ := none
  assignedTo : Option ℕ := none
  deliveryInstructions : Option String := none
deriving DecidableEq

/-- Saving a document keeps exactly the schema paths: `itemsPrice`,
`assignedTo` and `deliveryInstructions` are not in `orderSchema` and are
dropped by Mongoose strict mode. -/
def OrderDoc.persist (d : OrderDoc) : Order :=
  { user := d.user
    orderItems := d.orderItems
    shippingAddress := d.shippingAddress
    paymentMethod := d.paymentMethod
    paymentResult := d.paymentResult
    taxPrice := d.taxPrice
    shippingPrice := d.shippingPrice
    totalPrice := d.totalPrice
    isPaid := d.isPaid
    paidAt := d.paidAt
    isDelivered := d.isDelivered
    deliveredAt := d.deliveredAt
    orderStatus := d.orderStatus
    deliveryAgent := d.deliveryAgent }

/-- Loading a persisted record back into a document: the non-schema paths
come back at their defaults (they were never stored). -/
def Order.load (o : Order) : OrderDoc :=
  { user := o.user
    orderItems := o.orderItems
    shippingAddress := o.shippingAddress
    paymentMethod := o.paymentMethod
    paymentResult := o.paymentResult
    itemsPrice := 0
    taxPrice := o.taxPrice
    shippingPrice := o.shippingPrice
    totalPrice := o.totalPrice
    isPaid := o.isPaid
    paidAt := o.paidAt
    isDelivered := o.isDelivered
    deliveredAt := o.deliveredAt
    orderStatus := o.orderStatus
    deliveryAgent := o.deliveryAgent
    assignedTo := none
    deliveryInstructions := none }

/-- The database: Product, Order and User collections as association lists
keyed by object id. -/
structure DB where
  products : List (ℕ × Product)
  orders : List (ℕ × Order)
  users : List (ℕ × Role)
deriving DecidableEq

/-- `Model.findById`: first record with the given id. -/
def findById {α : Type} : List (ℕ × α) → ℕ → Option α
  | [], _ => none
  | (k, v) :: rest, i => if k = i then some v else findById rest i

/-- `doc.save()` after mutating the record with the given id. -/
def updateById {α : Type} : List (ℕ × α) → ℕ → (α → α) → List (ℕ × α)
  | [], _, _ => []
  | (k, v) :: rest, i, f =>
    if k = i then (k, f v) :: updateById rest i f
    else (k, v) :: updateById rest i f

/-- A client-submitted cart line (`orderItems` element of the request body):
`price` is the client-claimed unit price. -/
structure CartItem where
  product : ℕ
  name : String
  quantity : ℕ
  price : ℚ
  image : String
deriving DecidableEq

/-- Typed commitment failures (part_001 handler: 400/404 responses inside the
transaction; every failure aborts the transaction). -/
inductive CommitError
  | noOrderItems
  | productNotFound (productId : ℕ)
  | priceMismatch (productId : ℕ)
  | insufficientStock (productId : ℕ)
deriving DecidableEq

/-- `const TAX_RATE = 0.05` in the part_001 handler. -/
def TAX_RATE : ℚ := 5 / 100

/-- `const SHIPPING_COST = 10.00` in the part_001 handler. -/
def SHIPPING_COST : ℚ := 10

/-- `x.toFixed(2)` for the nonnegative amounts the handlers produce: round to
the nearest multiple of 1/100, ties to the larger candidate. -/
def toFixed2 (x : ℚ) : ℚ := (⌊x * 100 + 1 / 2⌋ : ℚ) / 100

/-- The verification loop of the part_001 `POST /api/orders` handler: for each
cart line fetch the product (404 if absent), compare the authoritative price
to the claimed one (400 price mismatch), check stock (400 insufficient), and
accumulate `calculatedItemsPrice` and the sanitized `newOrderItems`. -/
def verifyItems (products : List (ℕ × Product)) :
    List CartItem → Except CommitError (ℚ × List OrderItem)
  | [] => .ok (0, [])
  | item :: rest =>
    match findById products item.product with
    | none => .error (.productNotFound item.product)
    | some p =>
      if p.price ≠ item.price then .error (.priceMismatch item.product)
      else if p.stockQuantity < (item.quantity : ℤ) then
        .error (.insufficientStock item.product)
      else
        match verifyItems products rest with
        | .error e => .error e
        | .ok (acc, its) =>
          .ok (p.price * item.quantity + acc,
               { name := p.name
                 quantity := item.quantity
                 image := p.images.headD item.image
                 price := p.price
                 product := item.product } :: its)

/-- The commit-time stock decrement loop of the part_001 handler: re-fetch
each product inside the transaction and, when found, subtract the line
quantity. -/
def decrementStock (items : List OrderItem) (products : List (ℕ × Product)) :
    List (ℕ × Product) :=
  items.foldl
    (fun ps it =>
      match findById ps it.product with
      | some _ =>
        updateById ps it.product
          (fun q => { q with stockQuantity := q.stockQuantity - it.quantity })
      | none => ps)
    products

/-- `POST /api/orders` from src/unnamed/part_001: validate every line against
the catalog, compute `itemsPrice`, `taxPrice`, `shippingPrice`, `totalPrice`
server-side (each stored through `toFixed(2)`), persist the Order in state
`Pending`, and decrement stock — all in one transaction, so any failure
returns the input state untouched. -/
def createOrder (db : DB) (userId : ℕ) (cart : List CartItem)
    (addr : ShippingAddress) (payMethod : String) :
    Except CommitError (OrderDoc × DB) :=
  if cart.isEmpty then .error .noOrderItems
  else
    match verifyItems db.products cart with
    | .error e => .error e
    | .ok (calculatedItemsPrice, newItems) =>
      let doc : OrderDoc :=
        { user := userId
          orderItems := newItems
          shippingAddress := addr
          paymentMethod := payMethod
          itemsPrice := toFixed2 calculatedItemsPrice
          taxPrice := toFixed2 (calculatedItemsPrice * TAX_RATE)
          shippingPrice := toFixed2 SHIPPING_COST
          totalPrice :=
            toFixed2 (calculatedItemsPrice +
              calculatedItemsPrice * TAX_RATE + SHIPPING_COST)
          orderStatus := .pending }
      let oid := db.orders.length
      .ok (doc,
        { db with
          orders := db.orders ++ [(oid, doc.persist)]
          products := decrementStock newItems db.products })

/-- The stock-check loop of the part_002 `POST /api/orders` revision: product
must exist and have sufficient stock; no price comparison at all. -/
def checkStock (products : List (ℕ × Product)) :
    List CartItem → Except CommitError Unit
  | [] => .ok ()
  | item :: rest =>
    match findById products item.product with
    | none => .error (.productNotFound item.product)
    | some p =>
      if p.stockQuantity < (item.quantity : ℤ) then
        .error (.insufficientStock item.product)
      else checkStock products rest

/-- The part_002 revision persists the client-submitted order items verbatim
(including the client-claimed prices). -/
def cartToOrderItems (cart : List CartItem) : List OrderItem :=
  cart.map (fun c =>
    { name := c.name
      quantity := c.quantity
      image := c.image
      price := c.price
      product := c.product })

/-- `POST /api/orders` from src/unnamed/part_002: checks stock only, stores
the client-supplied items and price fields, decrements nothing. (`itemsPrice`
from the body is passed to the constructor but is not a schema path.) -/
def createOrderNoPriceCheck (db : DB) (userId : ℕ) (cart : List CartItem)
    (addr : ShippingAddress) (payMethod : String)
    (itemsPrice taxPrice shippingPrice totalPrice : ℚ) :
    Except CommitError (OrderDoc × DB) :=
  if cart.isEmpty then .error .noOrderItems
  else
    match checkStock db.products cart with
    | .error e => .error e
    | .ok _ =>
      let doc : OrderDoc :=
        { user := userId
          orderItems := cartToOrderItems cart
          shippingAddress := addr
          paymentMethod := payMethod
          itemsPrice := itemsPrice
          taxPrice := taxPrice
          shippingPrice := shippingPrice
          totalPrice := totalPrice
          orderStatus := .pending }
      let oid := db.orders.length
      .ok (doc, { db with orders := db.orders ++ [(oid, doc.persist)] })

/-- A `payment_intent.succeeded` event object as the webhook reads it. -/
structure PaymentIntent where
  id : String
  status : String
  created : ℕ
  receipt_email : Option String
  charges_email : Option String
deriving DecidableEq

/-- Outcomes of `POST /api/payments/webhook` (for a succeeded event carrying
an order id). -/
inductive WebhookResult
  | sigInvalid
  | orderNotFound
  | received
  | conflictInsufficientStock (productId : ℕ)
deriving DecidableEq

/-- The stock-reduction loop of the webhook: each order line re-fetches its
product inside the transaction; a missing product is skipped with only a
warning logged; insufficient stock aborts the whole transaction (409). -/
def reduceStock : List OrderItem → List (ℕ × Product) →
    Except ℕ (List (ℕ × Product))
  | [], products => .ok products
  | item :: rest, products =>
    match findById products item.product with
    | none => reduceStock rest products
    | some p =>
      if p.stockQuantity < (item.quantity : ℤ) then .error item.product
      else
        reduceStock rest
          (updateById products item.product
            (fun q => { q with stockQuantity := q.stockQuantity - item.quantity }))

/-- The `email_address` stored in `paymentResult`: receipt email, else the
first charge's billing email, else the literal string N/A. -/
def piEmail (pi : PaymentIntent) : String :=
  ((pi.receipt_email).orElse (fun _ => pi.charges_email)).getD "N/A"

/-- The order as the webhook rewrites it on a fresh `payment_intent.succeeded`
delivery: paid, timestamped from the intent's creation time, provider receipt
recorded, status advanced to Processing. -/
def paidOrder (ord : Order) (pi : PaymentIntent) : Order :=
  { ord with
    isPaid := true
    paidAt := some (pi.created * 1000)
    paymentResult := some
      { id := pi.id
        status := pi.status
        update_time := pi.created * 1000
        email_address := piEmail pi }
    orderStatus := .processing }

/-- `POST /api/payments/webhook` (src/backend/routes/orderRoutes.js) on a
`payment_intent.succeeded` event: verify the signature (reject with no state
touched on failure), find the Order (404 if absent), acknowledge a duplicate
delivery when `isPaid` is already true, otherwise — in one transaction — mark
the order paid, record the provider receipt, advance the status to
Processing, and run the stock-reduction loop (aborting everything on an
insufficient-stock conflict). -/
def paymentWebhook (db : DB) (sigValid : Bool) (orderId : ℕ)
    (pi : PaymentIntent) : WebhookResult × DB :=
  if ¬sigValid then (.sigInvalid, db)
  else
    match findById db.orders orderId with
    | none => (.orderNotFound, db)
    | some ord =>
      if ord.isPaid then (.received, db)
      else
        match reduceStock ord.orderItems db.products with
        | .error pid => (.conflictInsufficientStock pid, db)
        | .ok products2 =>
          (.received,
            { db with
              products := products2
              orders := updateById db.orders orderId
                (fun _ => paidOrder ord pi) })

/-- Outcomes of the `PUT /api/orders/:id/status` handler of
src/backend/routes/orderRoutes.js. -/
inductive StatusResult
  | forbiddenRole
  | orderNotFound
  | forbiddenNotAssigned
  | invalidStatus
  | updated
deriving DecidableEq

/-- `PUT /api/orders/:id/status` (src/backend/routes/orderRoutes.js): admin or
delivery-agent only; an agent must be the assigned `deliveryAgent` of the
order; the requested status must be one of the five known values (`none`
models any other request body); `deliveredAt` is set when the order first
reaches Delivered and cleared when the status moves off Delivered. -/
def updateOrderStatus (db : DB) (actor : Actor) (orderId : ℕ)
    (reqStatus : Option OrderStatus) (now : ℕ) : StatusResult × DB :=
  if actor.role ≠ .admin ∧ actor.role ≠ .deliveryAgent then
    (.forbiddenRole, db)
  else
    match findById db.orders orderId with
    | none => (.orderNotFound, db)
    | some ord =>
      if actor.role = .deliveryAgent ∧ ord.deliveryAgent ≠ some actor.id then
        (.forbiddenNotAssigned, db)
      else
        match reqStatus with
        | none => (.invalidStatus, db)
        | some s =>
          let ord1 : Order := { ord with orderStatus := s }
          let ord2 : Order :=
            if s = .delivered ∧ ord1.deliveredAt = none then
              { ord1 with deliveredAt := some now }
            else if s ≠ .delivered ∧ ord1.deliveredAt ≠ none then
              { ord1 with deliveredAt := none }
            else ord1
          (.updated,
            { db with orders := updateById db.orders orderId (fun _ => ord2) })

/-- Outcomes of the `PUT /api/orders/:id/status` revision of
src/unnamed/part_001; `updated notified` records whether the
status-changed email was fired. -/
inductive StatusResult2
  | forbiddenRole
  | orderNotFound
  | forbiddenNotAssigned
  | invalidAgentStatus
  | updated (notified : Bool)
deriving DecidableEq

/-- `PUT /api/orders/:id/status` from src/unnamed/part_001: an admin sets any
requested status (a falsy request keeps the old one) and may set `assignedTo`;
a delivery agent is rejected only when the document's `assignedTo` names a
different agent (a path the schema never persists, so it loads as `none`), and
may set only Out for Delivery, Delivered or Cancelled.  The notification email
is sent exactly when the saved status differs from the old one.  This revision
never touches `deliveredAt`. -/
def updateOrderStatusRev2 (db : DB) (actor : Actor) (orderId : ℕ)
    (reqStatus : Option OrderStatus) (assignedTo : Option ℕ) :
    StatusResult2 × DB :=
  if actor.role ≠ .admin ∧ actor.role ≠ .deliveryAgent then
    (.forbiddenRole, db)
  else
    match findById db.orders orderId with
    | none => (.orderNotFound, db)
    | some ord =>
      let doc := ord.load
      if actor.role = .admin then
        let doc1 : OrderDoc :=
          { doc with
            orderStatus := reqStatus.getD doc.orderStatus
            assignedTo :=
              match assignedTo with
              | some a => some a
              | none => doc.assignedTo }
        (.updated (decide (doc1.orderStatus ≠ ord.orderStatus)),
          { db with
            orders := updateById db.orders orderId (fun _ => doc1.persist) })
      else
        if (match doc.assignedTo with
            | some a => decide (a ≠ actor.id)
            | none => false) then
          (.forbiddenNotAssigned, db)
        else
          match reqStatus with
          | some s =>
            if s = .outForDelivery ∨ s = .delivered ∨ s = .cancelled then
              let doc1 : OrderDoc := { doc with orderStatus := s }
              (.updated (decide (s ≠ ord.orderStatus)),
                { db with
                  orders :=
                    updateById db.orders orderId (fun _ => doc1.persist) })
            else (.invalidAgentStatus, db)
          | none => (.invalidAgentStatus, db)

/-- Outcomes of `PUT /api/orders/:id/accept`. -/
inductive AcceptResult
  | forbiddenRole
  | orderNotFound
  | badStatus
  | alreadyAssigned
  | accepted
deriving DecidableEq

/-- `PUT /api/orders/:id/accept` (src/backend/routes/orderRoutes.js,
delivery-agent role only): an agent self-assigns an order that is Pending or
Processing and not yet assigned; the status becomes Out for Delivery. -/
def acceptOrder (db : DB) (actor : Actor) (orderId : ℕ) : AcceptResult × DB :=
  if actor.role ≠ .deliveryAgent then (.forbiddenRole, db)
  else
    match findById db.orders orderId with
    | none => (.orderNotFound, db)
    | some ord =>
      if ord.orderStatus ≠ .pending ∧ ord.orderStatus ≠ .processing then
        (.badStatus, db)
      else if ord.deliveryAgent ≠ none then (.alreadyAssigned, db)
      else
        (.accepted,
          { db with
            orders := updateById db.orders orderId
              (fun _ =>
                { ord with
                  deliveryAgent := some actor.id
                  orderStatus := .outForDelivery }) })

/-- Outcomes of `PUT /api/orders/:id/assign-agent`.  `serverError` is the 500
produced when the handler throws at the `User.findById` lookup. -/
inductive AssignResult
  | forbiddenRole
  | orderNotFound
  | serverError
deriving DecidableEq

/-- `PUT /api/orders/:id/assign-agent` (src/backend/routes/orderRoutes.js,
admin only): the handler calls `User.findById(deliveryAgentId)`, but the file
never imports the User model (it only imports Order, Product and the auth
middleware), so every invocation that reaches the lookup throws
`ReferenceError: User is not defined`, lands in the catch block and returns
500.  The intended agent-role check and `deliveryAgent` assignment that
follow the lookup are dead code: this route never mutates the order, and the
`agentId` from the request body is never consulted. -/
def assignAgent (db : DB) (actor : Actor) (orderId agentId : ℕ) :
    AssignResult × DB :=
  if actor.role ≠ .admin then (.forbiddenRole, db)
  else
    match findById db.orders orderId with
    | none => (.orderNotFound, db)
    | some _ => (.serverError, db)

/-- `true` exactly when a commitment attempt succeeded. -/
def commitOk (r : Except CommitError (OrderDoc × DB)) : Bool :=
  match r with
  | .ok _ => true
  | .error _ => false

instance {ε α : Type} [DecidableEq ε] [DecidableEq α] :
    DecidableEq (Except ε α) := fun a b =>
  match a, b with
  | .ok x, .ok y =>
    match decEq x y with
    | isTrue h => isTrue (by rw [h])
    | isFalse h => isFalse (by intro hc; cases hc; exact h rfl)
  | .ok _, .error _ => isFalse (by intro hc; cases hc)
  | .error _, .ok _ => isFalse (by intro hc; cases hc)
  | .error e, .error e2 =>
    match decEq e e2 with
    | isTrue h => isTrue (by rw [h])
    | isFalse h => isFalse (by intro hc; cases hc; exact h rfl)

/-- The sum over cart lines of authoritative catalog price times quantity
(a missing product contributes zero; the commit path only reaches the sum
when every product was found). -/
def cartSum (products : List (ℕ × Product)) : List CartItem → ℚ
  | [] => 0
  | item :: rest =>
    (match findById products item.product with
     | some p => p.price
     | none => 0) * item.quantity + cartSum products rest

/-- A fixed shipping address used by the concrete scenarios below. -/
def anAddress : ShippingAddress :=
  ⟨"1 Main St", "Springfield", "12345", "US", "5550100"⟩

/-- Catalog for the C1 scenario: one product, authoritative price 5.00,
stock 10. -/
def c1db : DB := ⟨[(1, ⟨"Widget", 5, 10, []⟩)], [], []⟩

/-- Cart for the C1 scenario: two units of product 1 at the correct claimed
price. -/
def c1cart : List CartItem := [⟨1, "Widget", 2, 5, "img"⟩]

/-- Database state after the successful commitment of the C1 cart. -/
def c1dbAfterCommit : DB :=
  match createOrder c1db 2 c1cart anAddress "card" with
  | .ok (_, db) => db
  | .error _ => c1db

/-- The succeeded payment intent later delivered for the C1 order. -/
def c1pi : PaymentIntent := ⟨"pi_1", "succeeded", 7, none, none⟩

/-- Database state after the payment webhook processes the C1 order. -/
def c1dbAfterWebhook : DB := (paymentWebhook c1dbAfterCommit true 0 c1pi).2

/-- Catalog and cart for the C9 scenario (the spec's own scenario: price
5.00, quantity 2, stock 10). -/
def c9db : DB := ⟨[(1, ⟨"Widget", 5, 10, []⟩)], [], []⟩

def c9cart : List CartItem := [⟨1, "Widget", 2, 5, "img"⟩]

def c9res : Except CommitError (OrderDoc × DB) :=
  createOrder c9db 2 c9cart anAddress "card"

def c9doc : OrderDoc :=
  match c9res with
  | .ok (d, _) => d
  | .error _ =>
    { user := 0, orderItems := [], shippingAddress := anAddress,
      paymentMethod := "" }

def c9db2 : DB :=
  match c9res with
  | .ok (_, db) => db
  | .error _ => c9db

/-- The authoritative price 1/8 (0.125 — exactly representable as a JS
number), written as a raw rational so it evaluates inside the kernel. -/
def c2price : ℚ := ⟨1, 8, by decide, by decide⟩

/-- Catalog for the C2 counterexample: authoritative price 0.125. -/
def c2db : DB := ⟨[(1, ⟨"Cheap", c2price, 10, []⟩)], [], []⟩

def c2res : Except CommitError (OrderDoc × DB) :=
  createOrder c2db 2 [⟨1, "Cheap", 1, c2price, "img"⟩] anAddress "card"

def c2doc : OrderDoc :=
  match c2res with
  | .ok (d, _) => d
  | .error _ =>
    { user := 0, orderItems := [], shippingAddress := anAddress,
      paymentMethod := "" }

/-- Catalog and cart for the C2 witness (the spec's own scenario). -/
def c2wdb : DB := ⟨[(1, ⟨"Widget", 5, 10, ["pic"]⟩)], [], []⟩

def c2wcart : List CartItem := [⟨1, "Widget", 2, 5, "img"⟩]

def c2wres : Except CommitError (OrderDoc × DB) :=
  createOrder c2wdb 3 c2wcart anAddress "card"

def c2wdoc : OrderDoc :=
  match c2wres with
  | .ok (d, _) => d
  | .error _ =>
    { user := 0, orderItems := [], shippingAddress := anAddress,
      paymentMethod := "" }

def c2wdb2 : DB :=
  match c2wres with
  | .ok (_, db) => db
  | .error _ => c2wdb

/-- Catalog for the C3 counterexample: authoritative price 5. -/
def c3db : DB := ⟨[(1, ⟨"Widget", 5, 10, []⟩)], [], []⟩

/-- A cart claiming price 99 for the product whose real price is 5. -/
def c3cart : List CartItem := [⟨1, "Widget", 1, 99, "img"⟩]

def c3res : Except CommitError (OrderDoc × DB) :=
  createOrderNoPriceCheck c3db 4 c3cart anAddress "card" 99 0 0 99

def c3db2 : DB :=
  match c3res with
  | .ok (_, db) => db
  | .error _ => c3db

/-- Fixture for the C3 witness: product 1 has authoritative price 5, product
2 has authoritative price 3 and stock 5. -/
def c3wdb : DB :=
  ⟨[(1, ⟨"Widget", 5, 10, []⟩), (2, ⟨"Gadget", 3, 5, []⟩)], [], []⟩

/-- A clean first line: product 2 at its correct price 3. -/
def c3wclean : CartItem := ⟨2, "Gadget", 1, 3, "img"⟩

/-- The mismatching second line: product 1 claimed at 7 instead of 5. -/
def c3witem : CartItem := ⟨1, "Widget", 1, 7, "img"⟩

/-- An already-paid order used to witness the duplicate-delivery branch. -/
def c4order : Order :=
  { user := 1, orderItems := [], shippingAddress := anAddress,
    paymentMethod := "card", isPaid := true, orderStatus := .processing }

def c4db : DB := ⟨[], [(0, c4order)], []⟩

def c4pi : PaymentIntent := ⟨"pi_4", "succeeded", 3, none, none⟩

/-- Products for the C10 witness: product 1 exists with stock 10; product 99
does not exist. -/
def c10products : List (ℕ × Product) := [(1, ⟨"Widget", 5, 10, []⟩)]

/-- An order line referencing the vanished product 99. -/
def c10ghost : OrderItem := ⟨"Ghost", 5, "img", 9, 99⟩

/-- An order line referencing the existing product 1. -/
def c10live : OrderItem := ⟨"Widget", 2, "img", 5, 1⟩

/-- The unpaid order whose lines mix an existing and a missing product. -/
def c10order : Order :=
  { user := 3, orderItems := [c10live, c10ghost],
    shippingAddress := anAddress, paymentMethod := "card" }

def c10db : DB := ⟨c10products, [(0, c10order)], []⟩

def c10pi : PaymentIntent := ⟨"pi_9", "succeeded", 11, some "x@y.z", none⟩

/-- An order assigned to delivery agent 7, currently Out for Delivery. -/
def c5order : Order :=
  { user := 1, orderItems := [], shippingAddress := anAddress,
    paymentMethod := "card", orderStatus := .outForDelivery,
    deliveryAgent := some 7 }

def c5db : DB := ⟨[], [(0, c5order)], []⟩

def c5res : StatusResult × DB :=
  updateOrderStatus c5db ⟨7, .deliveryAgent⟩ 0 (some .pending) 99

/-- Fixture for the C5 witness: order 0 is assigned to agent 7; order 1 is
assigned to agent 9. -/
def c5wdb : DB :=
  ⟨[], [(0, c5order),
        (1, { c5order with deliveryAgent := some 9 })], []⟩

/-- An unassigned Pending order. -/
def c6order : Order :=
  { user := 1, orderItems := [], shippingAddress := anAddress,
    paymentMethod := "card", orderStatus := .pending }

def c6db : DB := ⟨[], [(0, c6order)], []⟩

def c6res : AcceptResult × DB := acceptOrder c6db ⟨7, .deliveryAgent⟩ 0

/-- Fixture for the C6 witness: order 0 already assigned to agent 9, order 1
unassigned and Pending, user 7 a delivery agent. -/
def c6wdb : DB :=
  ⟨[], [(0, { c6order with deliveryAgent := some 9 }), (1, c6order)],
   [(7, Role.deliveryAgent)]⟩

/-- A succeeded payment intent used by the C6 witness. -/
def c6pi : PaymentIntent := ⟨"pi_6", "succeeded", 4, none, none⟩

/-- An order currently Out for Delivery with no delivery timestamp. -/
def c8order : Order :=
  { user := 1, orderItems := [], shippingAddress := anAddress,
    paymentMethod := "card", orderStatus := .outForDelivery }

def c8db : DB := ⟨[], [(0, c8order)], []⟩

def c8res : StatusResult2 × DB :=
  updateOrderStatusRev2 c8db ⟨1, .admin⟩ 0 (some .delivered) none

/-- Fixture for the C8 witness: order 0 assigned no timestamp history —
Delivered was reached before with `deliveredAt` 42. -/
def c8wdb : DB :=
  ⟨[], [(0, { c8order with deliveredAt := some 42 })], []⟩

theorem findById_updateById_self {α : Type} (l : List (ℕ × α)) (i : ℕ)
    (f : α → α) :
    findById (updateById l i f) i = (findById l i).map f := by
  induction l with
  | nil => rfl
  | cons hd tl ih =>
    obtain ⟨k, v⟩ := hd
    by_cases hk : k = i
    · subst hk
      simp [findById, updateById]
    · simp [findById, updateById, hk, ih]

theorem findById_updateById_ne {α : Type} (l : List (ℕ × α)) (i j : ℕ)
    (f : α → α) (h : i ≠ j) :
    findById (updateById l i f) j = findById l j := by
  induction l with
  | nil => rfl
  | cons hd tl ih =>
    obtain ⟨k, v⟩ := hd
    by_cases hki : k = i
    · subst hki
      have hkj : k ≠ j := h
      simp [findById, updateById, hkj, ih]
    · by_cases hkj : k = j
      · subst hkj
        simp [findById, updateById, hki]
      · simp [findById, updateById, hki, hkj, ih]

/-- C1: the claim says stock is decremented exactly once, at commitment time,
and that payment-succeeded reconciliation performs no stock mutation.  The
code decrements at commitment (10 → 8) and then the webhook's stock-reduction
loop decrements the same line again (8 → 6), so the total decrement for a
line of quantity 2 is 4, not 2: the two live policies together double-count,
exactly the bug class the spec flags. -/
theorem c1_stock_decremented_at_commit_and_again_at_webhook :
    commitOk (createOrder c1db 2 c1cart anAddress "card") = true ∧
    (findById c1dbAfterCommit.products 1).map Product.stockQuantity = some 8 ∧
    (findById c1dbAfterCommit.orders 0).map Order.isPaid = some false ∧
    (paymentWebhook c1dbAfterCommit true 0 c1pi).1 = .received ∧
    (findById c1dbAfterWebhook.products 1).map Product.stockQuantity = some 6 ∧
    ¬((10 : ℤ) - 6 = 2) := by
  decide

/-- C7: a webhook delivery whose signature fails verification is rejected
with the signature error and the database state is returned untouched: the
handler returns before any Order or Product is read or written. -/
theorem c7_invalid_signature_fails_closed (db : DB) (orderId : ℕ)
    (pi : PaymentIntent) :
    paymentWebhook db false orderId pi = (.sigInvalid, db) := by
  simp [paymentWebhook]

/-- C9: the commitment handler computes `itemsPrice` (here 10.00) and passes
it to the Order constructor, but `orderSchema` declares no `itemsPrice` path,
so persistence is independent of it: two documents differing only in
`itemsPrice` persist to the same record, and the record actually stored for
the scenario order is exactly the `itemsPrice`-free projection. -/
theorem c9_itemsPrice_not_persisted :
    (∀ (d : OrderDoc) (x : ℚ),
      OrderDoc.persist { d with itemsPrice := x } = d.persist) ∧
    commitOk c9res = true ∧
    c9doc.itemsPrice = 10 ∧
    findById c9db2.orders 0 = some c9doc.persist := by
  refine ⟨fun d x => rfl, by decide, ?_, rfl⟩
  show toFixed2 ((5 : ℚ) * (2 : ℕ) + 0) = 10
  norm_num [toFixed2]

/-- C10: in the webhook's stock-reduction loop, a line whose product no
longer exists is skipped (only a warning is logged), and when the remaining
lines reduce cleanly the transaction still commits: the order is marked paid
with the provider receipt and advanced to Processing even though the missing
line decremented nothing. -/
theorem c10_missing_product_line_skipped_and_commit_proceeds
    (item : OrderItem) (rest : List OrderItem) (db : DB) (orderId : ℕ)
    (pi : PaymentIntent) (ord : Order)
    (hmiss : findById db.products item.product = none)
    (hord : findById db.orders orderId = some ord)
    (hunpaid : ord.isPaid = false) :
    reduceStock (item :: rest) db.products = reduceStock rest db.products ∧
    (∀ products2, reduceStock ord.orderItems db.products = .ok products2 →
      paymentWebhook db true orderId pi =
        (.received,
          { db with
            products := products2
            orders := updateById db.orders orderId
              (fun _ => paidOrder ord pi) })) := by
  constructor
  · simp [reduceStock, hmiss]
  · intro products2 hred
    simp [paymentWebhook, hord, hunpaid, hred]

/-- The accumulator returned by a successful verification loop is exactly the
sum of authoritative price times quantity over the cart. -/
theorem verifyItems_ok_sum (products : List (ℕ × Product)) :
    ∀ (cart : List CartItem) (s : ℚ) (its : List OrderItem),
      verifyItems products cart = .ok (s, its) →
      s = cartSum products cart := by
  intro cart
  induction cart with
  | nil =>
    intro s its h
    simp only [verifyItems, Except.ok.injEq, Prod.mk.injEq] at h
    simp [cartSum, ← h.1]
  | cons hd tl ih =>
    intro s its h
    rw [verifyItems] at h
    cases hfp : findById products hd.product with
    | none =>
      rw [hfp] at h
      simp at h
    | some p =>
      rw [hfp] at h
      by_cases h1 : p.price ≠ hd.price
      · simp [h1] at h
      · by_cases h2 : p.stockQuantity < (hd.quantity : ℤ)
        · simp [h1, h2] at h
        · cases hr : verifyItems products tl with
          | error e =>
            rw [hr] at h
            simp [h1, h2] at h
          | ok pr =>
            rw [hr] at h
            obtain ⟨acc, its2⟩ := pr
            simp only [h1, h2, if_false, ite_false,
              Except.ok.injEq, Prod.mk.injEq] at h
            simp only [cartSum, hfp]
            rw [← h.1, ih acc its2 hr]

/-- C2 (amended): on every successful commitment the stored price fields are
computed purely from authoritative catalog prices — `itemsPrice` is the
rounded line sum, `taxPrice` the rounded `TAX_RATE` multiple, `shippingPrice`
the shipping constant, and `totalPrice` the rounding of the exact pre-rounding
total.  The pre-rounding values satisfy the additive equations exactly;
because each stored field is rounded separately through `toFixed(2)`, the
stored fields themselves may miss additivity by a cent (see the
counterexample). -/
theorem c2_totals_amended (db : DB) (userId : ℕ) (cart : List CartItem)
    (addr : ShippingAddress) (payMethod : String) (doc : OrderDoc) (db2 : DB)
    (h : createOrder db userId cart addr payMethod = .ok (doc, db2)) :
    doc.itemsPrice = toFixed2 (cartSum db.products cart) ∧
    doc.taxPrice = toFixed2 (cartSum db.products cart * TAX_RATE) ∧
    doc.shippingPrice = toFixed2 SHIPPING_COST ∧
    doc.shippingPrice = SHIPPING_COST ∧
    doc.totalPrice = toFixed2 (cartSum db.products cart
      + cartSum db.products cart * TAX_RATE + SHIPPING_COST) := by
  rw [createOrder] at h
  by_cases he : cart.isEmpty
  · simp [he] at h
  · simp only [he, if_false, Bool.false_eq_true, ite_false] at h
    cases hv : verifyItems db.products cart with
    | error e =>
      rw [hv] at h
      simp at h
    | ok pr =>
      rw [hv] at h
      obtain ⟨s, its⟩ := pr
      simp only [Except.ok.injEq, Prod.mk.injEq] at h
      have hs : s = cartSum db.products cart :=
        verifyItems_ok_sum db.products cart s its hv
      have hdoc := h.1
      subst hdoc
      rw [← hs]
      refine ⟨rfl, rfl, rfl, ?_, rfl⟩
      show toFixed2 SHIPPING_COST = SHIPPING_COST
      norm_num [toFixed2, SHIPPING_COST]

theorem c2price_eq : c2price = 1 / 8 := by
  rw [c2price, Rat.mk'_eq_divInt, Rat.divInt_eq_div]
  norm_num

/-- C2 counterexample: with authoritative price 0.125 the commitment
succeeds, storing itemsPrice 0.13, taxPrice 0.01, shippingPrice 10.00 and
totalPrice 10.13 — and 10.13 is not 0.13 + 0.01 + 10.00 = 10.14, so the
persisted equation `totalPrice = itemsPrice + taxPrice + shippingPrice`
fails (each field is rounded separately by `toFixed(2)`). -/
theorem c2_rounded_totals_not_additive :
    commitOk c2res = true ∧
    c2doc.itemsPrice = 13 / 100 ∧
    c2doc.taxPrice = 1 / 100 ∧
    c2doc.shippingPrice = 10 ∧
    c2doc.totalPrice = 1013 / 100 ∧
    ¬(c2doc.totalPrice = c2doc.itemsPrice + c2doc.taxPrice
        + c2doc.shippingPrice) := by
  refine ⟨by decide, ?_, ?_, ?_, ?_, ?_⟩
  · show toFixed2 (c2price * (1 : ℕ) + 0) = 13 / 100
    rw [c2price_eq]
    norm_num [toFixed2]
  · show toFixed2 ((c2price * (1 : ℕ) + 0) * TAX_RATE) = 1 / 100
    rw [c2price_eq]
    norm_num [toFixed2, TAX_RATE]
  · show toFixed2 SHIPPING_COST = 10
    norm_num [toFixed2, SHIPPING_COST]
  · show toFixed2 ((c2price * (1 : ℕ) + 0)
      + (c2price * (1 : ℕ) + 0) * TAX_RATE + SHIPPING_COST) = 1013 / 100
    rw [c2price_eq]
    norm_num [toFixed2, TAX_RATE, SHIPPING_COST]
  · show ¬(toFixed2 ((c2price * (1 : ℕ) + 0)
      + (c2price * (1 : ℕ) + 0) * TAX_RATE + SHIPPING_COST)
        = toFixed2 (c2price * (1 : ℕ) + 0)
          + toFixed2 ((c2price * (1 : ℕ) + 0) * TAX_RATE)
          + toFixed2 SHIPPING_COST)
    rw [c2price_eq]
    norm_num [toFixed2, TAX_RATE, SHIPPING_COST]

/-- Witness for the amended C2 at the spec scenario (price 5.00, quantity 2):
the commitment succeeds and the stored fields are the rounded
authoritative-price formulas. -/
theorem c2_totals_amended_witness :
    createOrder c2wdb 3 c2wcart anAddress "card" = .ok (c2wdoc, c2wdb2) ∧
    c2wdoc.itemsPrice = toFixed2 (cartSum c2wdb.products c2wcart) ∧
    c2wdoc.shippingPrice = SHIPPING_COST := by
  have h : createOrder c2wdb 3 c2wcart anAddress "card" = .ok (c2wdoc, c2wdb2) :=
    rfl
  exact ⟨h,
    (c2_totals_amended c2wdb 3 c2wcart anAddress "card" c2wdoc c2wdb2 h).1,
    (c2_totals_amended c2wdb 3 c2wcart anAddress "card" c2wdoc c2wdb2 h).2.2.2.1⟩

/-- Updating one record leaves every projection `g` of every lookup unchanged
provided the update function preserves `g` at the stored value. -/
theorem findById_updateById_map {α β : Type} (l : List (ℕ × α)) (i j : ℕ)
    (f : α → α) (g : α → β)
    (hg : ∀ v, findById l i = some v → g (f v) = g v) :
    (findById (updateById l i f) j).map g = (findById l j).map g := by
  by_cases hj : i = j
  · subst hj
    rw [findById_updateById_self]
    cases hf : findById l i with
    | none => rfl
    | some v => simp [hg v hf]
  · rw [findById_updateById_ne l i j f hj]

/-- A cart containing a line whose claimed price differs from the
authoritative price of its (existing) product never verifies. -/
theorem verifyItems_not_ok_of_mismatch (products : List (ℕ × Product))
    (item : CartItem) (p : Product)
    (hfound : findById products item.product = some p)
    (hne : p.price ≠ item.price) :
    ∀ cart : List CartItem, item ∈ cart →
      ∀ (s : ℚ) (its : List OrderItem),
        verifyItems products cart ≠ .ok (s, its) := by
  intro cart
  induction cart with
  | nil =>
    intro hmem
    cases hmem
  | cons hd tl ih =>
    intro hmem s its h
    rw [verifyItems] at h
    rcases List.mem_cons.mp hmem with heq | hmem2
    · subst heq
      rw [hfound] at h
      simp [hne] at h
    · cases hfp : findById products hd.product with
      | none =>
        rw [hfp] at h
        simp at h
      | some q =>
        rw [hfp] at h
        by_cases h1 : q.price ≠ hd.price
        · simp [h1] at h
        · by_cases h2 : q.stockQuantity < (hd.quantity : ℤ)
          · simp [h1, h2] at h
          · cases hr : verifyItems products tl with
            | error e =>
              rw [hr] at h
              simp [h1, h2] at h
            | ok pr =>
              exact ih hmem2 pr.1 pr.2 hr

/-- When every line before the mismatching one passes its three checks
(product found, price equal, stock sufficient), the verification loop reaches
the mismatching line and stops with exactly its price-mismatch error. -/
theorem verifyItems_error_at_first_mismatch (products : List (ℕ × Product))
    (item : CartItem) (p : Product)
    (hfound : findById products item.product = some p)
    (hne : p.price ≠ item.price) :
    ∀ pre : List CartItem,
      (∀ c ∈ pre, ∃ q, findById products c.product = some q ∧
          q.price = c.price ∧ ¬(q.stockQuantity < (c.quantity : ℤ))) →
      ∀ rest, verifyItems products (pre ++ item :: rest)
        = .error (.priceMismatch item.product) := by
  intro pre
  induction pre with
  | nil =>
    intro _ rest
    rw [List.nil_append, verifyItems, hfound]
    simp [hne]
  | cons c pre2 ih =>
    intro hclean rest
    obtain ⟨q, hq, hqp, hqs⟩ := hclean c (List.mem_cons_self c pre2)
    have hqp2 : ¬(q.price ≠ c.price) := by
      rw [hqp]
      simp
    rw [List.cons_append, verifyItems, hq,
      ih (fun c2 hc2 => hclean c2 (List.mem_cons_of_mem c hc2)) rest]
    simp [hqp2, hqs]

/-- C3 (amended): a commitment whose cart contains a line with a claimed
price differing from the product's authoritative price never succeeds — no
Order row and no stock mutation, since a failed `createOrder` returns no new
state — and whenever every line before the mismatching one passes its checks
(product found, price equal, stock sufficient) the reported error is exactly
the price mismatch for that line's product (an earlier offending line would
instead report its own product-not-found or insufficient-stock error; the
part_002 revision performs no price verification at all, see the
counterexample). -/
theorem c3_price_mismatch_amended (db : DB) (userId : ℕ)
    (cart : List CartItem) (addr : ShippingAddress) (payMethod : String)
    (item : CartItem) (p : Product)
    (hmem : item ∈ cart)
    (hfound : findById db.products item.product = some p)
    (hne : p.price ≠ item.price) :
    (∀ (doc : OrderDoc) (db2 : DB),
      createOrder db userId cart addr payMethod ≠ .ok (doc, db2)) ∧
    (∀ (pre rest : List CartItem), cart = pre ++ item :: rest →
      (∀ c ∈ pre, ∃ q, findById db.products c.product = some q ∧
          q.price = c.price ∧ ¬(q.stockQuantity < (c.quantity : ℤ))) →
      createOrder db userId cart addr payMethod
        = .error (.priceMismatch item.product)) := by
  constructor
  · intro doc db2 h
    rw [createOrder] at h
    by_cases he : cart.isEmpty
    · simp [he] at h
    · simp only [he, if_false, Bool.false_eq_true, ite_false] at h
      cases hv : verifyItems db.products cart with
      | error e =>
        rw [hv] at h
        simp at h
      | ok pr =>
        exact verifyItems_not_ok_of_mismatch db.products item p hfound hne
          cart hmem pr.1 pr.2 hv
  · intro pre rest hcart hclean
    subst hcart
    rw [createOrder]
    have he : (pre ++ item :: rest).isEmpty = false := by
      cases pre <;> rfl
    rw [he]
    simp only [Bool.false_eq_true, if_false]
    rw [verifyItems_error_at_first_mismatch db.products item p hfound hne
      pre hclean rest]

/-- C3 counterexample: the part_002 commitment revision accepts the cart with
the mismatched claimed price 99 (authoritative price 5): the commitment
succeeds and an Order row is created carrying the client-claimed price, so
"always fails with PriceMismatch and produces zero Order rows" is false for
this handler. -/
theorem c3_counterexample :
    (findById c3db.products 1).map Product.price = some 5 ∧
    commitOk c3res = true ∧
    c3db2.orders.length = 1 ∧
    (findById c3db2.orders 0).map (fun o => o.orderItems.map OrderItem.price)
      = some [99] := by
  decide

/-- Witness for the amended C3: a cart whose first line is clean (product 2
at its true price) and whose second line claims 7 for the price-5 product is
rejected with the price mismatch for product 1 — the clean line before the
mismatch does not change the error — and no such cart ever commits. -/
theorem c3_price_mismatch_amended_witness :
    (∀ (doc : OrderDoc) (db2 : DB),
      createOrder c3wdb 4 [c3wclean, c3witem] anAddress "card"
        ≠ .ok (doc, db2)) ∧
    createOrder c3wdb 4 [c3wclean, c3witem] anAddress "card"
      = .error (.priceMismatch 1) :=
  ⟨(c3_price_mismatch_amended c3wdb 4 [c3wclean, c3witem] anAddress "card"
      c3witem ⟨"Widget", 5, 10, []⟩ (by decide) (by decide) (by decide)).1,
   (c3_price_mismatch_amended c3wdb 4 [c3wclean, c3witem] anAddress "card"
      c3witem ⟨"Widget", 5, 10, []⟩ (by decide) (by decide) (by decide)).2
     [c3wclean] [] rfl
     (by
       intro c hc
       rw [List.mem_singleton] at hc
       subst hc
       exact ⟨⟨"Gadget", 3, 5, []⟩, by decide, by decide, by decide⟩)⟩

/-- C4: payment-succeeded reconciliation is idempotent on the database state
under at-least-once delivery — replaying the same event leaves the state of
the first delivery unchanged — and an order already marked paid is
acknowledged as a duplicate with no mutation at all.  (The webhook fires no
notification, so none can be duplicated.) -/
theorem c4_webhook_idempotent (db : DB) (orderId : ℕ) (pi : PaymentIntent) :
    (paymentWebhook (paymentWebhook db true orderId pi).2 true orderId pi).2
      = (paymentWebhook db true orderId pi).2 ∧
    (∀ ord, findById db.orders orderId = some ord → ord.isPaid = true →
      paymentWebhook db true orderId pi = (.received, db)) := by
  constructor
  · cases hf : findById db.orders orderId with
    | none => simp [paymentWebhook, hf]
    | some ord =>
      by_cases hp : ord.isPaid
      · simp [paymentWebhook, hf, hp]
      · cases hr : reduceStock ord.orderItems db.products with
        | error pid => simp [paymentWebhook, hf, hp, hr]
        | ok products2 =>
          have hf2 : findById (updateById db.orders orderId
              (fun _ => paidOrder ord pi)) orderId
                = some (paidOrder ord pi) := by
            rw [findById_updateById_self, hf]
            rfl
          have hstep : paymentWebhook db true orderId pi
              = (.received,
                 { db with
                   products := products2
                   orders := updateById db.orders orderId
                     (fun _ => paidOrder ord pi) }) := by
            simp [paymentWebhook, hf, hp, hr]
          rw [hstep]
          have hpaid : (paidOrder ord pi).isPaid = true := rfl
          simp [paymentWebhook, hf2, hpaid]
  · intro ord hf hp
    simp [paymentWebhook, hf, hp]

/-- Witness for C4 at a concrete paid order: redelivery changes nothing and
the duplicate is acknowledged with the state untouched. -/
theorem c4_webhook_idempotent_witness :
    (paymentWebhook (paymentWebhook c4db true 0 c4pi).2 true 0 c4pi).2
      = (paymentWebhook c4db true 0 c4pi).2 ∧
    paymentWebhook c4db true 0 c4pi = (.received, c4db) :=
  ⟨(c4_webhook_idempotent c4db 0 c4pi).1,
   (c4_webhook_idempotent c4db 0 c4pi).2 c4order (by decide) (by decide)⟩

/-- Witness for C10 at the concrete state: the ghost line is skipped and the
webhook still commits, marking the order paid. -/
theorem c10_missing_product_witness :
    reduceStock (c10ghost :: []) c10db.products =
      reduceStock [] c10db.products ∧
    paymentWebhook c10db true 0 c10pi =
      (.received,
        { c10db with
          products := [(1, ⟨"Widget", 5, 8, []⟩)]
          orders := updateById c10db.orders 0
            (fun _ => paidOrder c10order c10pi) }) := by
  have h := c10_missing_product_line_skipped_and_commit_proceeds
    c10ghost [] c10db 0 c10pi c10order (by decide) (by decide) (by decide)
  refine ⟨h.1, ?_⟩
  have h2 := h.2 [(1, ⟨"Widget", 5, 8, []⟩)] (by decide)
  exact h2

/-- C5 counterexample: in the status handler that enforces assignment, the
assigned agent 7 requests the status Pending — outside the claimed target set
{Out for Delivery, Delivered, Cancelled} — and the request is accepted and
mutates the order, so the claim that any other requested status fails with no
mutation is false. -/
theorem c5_counterexample :
    c5res.1 = .updated ∧
    (findById c5res.2.orders 0).map Order.orderStatus = some .pending ∧
    ¬(OrderStatus.pending = .outForDelivery ∨ OrderStatus.pending = .delivered
        ∨ OrderStatus.pending = .cancelled) ∧
    ¬(c5res.2 = c5db) := by
  decide

/-- C5 (amended): in the orderRoutes.js status handler, a delivery agent who
is not the assigned `deliveryAgent` of the order is rejected as Forbidden
with no mutation; but an assigned agent may set any of the five schema
statuses, the order taking whatever status was requested.  The restriction of
agents to {Out for Delivery, Delivered, Cancelled} is enforced only by the
part_001 revision of the handler, which rejects any other requested status
with no mutation. -/
theorem c5_agent_status_amended (db : DB) (actor : Actor) (orderId : ℕ)
    (s : OrderStatus) (now : ℕ) (ord : Order) (asg : Option ℕ) :
    (actor.role = .deliveryAgent → findById db.orders orderId = some ord →
      ord.deliveryAgent ≠ some actor.id →
      updateOrderStatus db actor orderId (some s) now
        = (.forbiddenNotAssigned, db)) ∧
    (actor.role = .deliveryAgent → findById db.orders orderId = some ord →
      ord.deliveryAgent = some actor.id →
      (updateOrderStatus db actor orderId (some s) now).1 = .updated ∧
      (findById (updateOrderStatus db actor orderId (some s) now).2.orders
          orderId).map Order.orderStatus = some s) ∧
    (actor.role = .deliveryAgent → findById db.orders orderId = some ord →
      ¬(s = .outForDelivery ∨ s = .delivered ∨ s = .cancelled) →
      updateOrderStatusRev2 db actor orderId (some s) asg
        = (.invalidAgentStatus, db)) := by
  refine ⟨?_, ?_, ?_⟩
  · intro hrole hf hne
    have hro : ¬(actor.role ≠ .admin ∧ actor.role ≠ .deliveryAgent) := by
      rw [hrole]
      simp
    have hag : actor.role = .deliveryAgent ∧ ord.deliveryAgent ≠ some actor.id :=
      ⟨hrole, hne⟩
    rw [updateOrderStatus]
    simp [hro, hf, hag]
  · intro hrole hf hassigned
    have hro : ¬(actor.role ≠ .admin ∧ actor.role ≠ .deliveryAgent) := by
      rw [hrole]
      simp
    have hag : ¬(actor.role = .deliveryAgent
        ∧ ord.deliveryAgent ≠ some actor.id) := by
      rw [hassigned]
      simp
    constructor
    · rw [updateOrderStatus]
      simp [hro, hf, hag]
    · rw [updateOrderStatus]
      simp only [hro, if_false, ite_false, hf, hag]
      rw [findById_updateById_self, hf]
      split_ifs <;> rfl
  · intro hrole hf hs
    have hro : ¬(actor.role ≠ .admin ∧ actor.role ≠ .deliveryAgent) := by
      rw [hrole]
      simp
    have hadm : ¬(actor.role = .admin) := by
      rw [hrole]
      simp
    rw [updateOrderStatusRev2]
    simp [hro, hrole, hf, hadm, Order.load, hs]

/-- Witness for the amended C5: agent 7 is Forbidden on the order assigned to
agent 9; on their own order a request for Pending is accepted and stored; and
the part_001 revision rejects the same Pending request outright. -/
theorem c5_agent_status_amended_witness :
    updateOrderStatus c5wdb ⟨7, .deliveryAgent⟩ 1 (some .pending) 99
      = (.forbiddenNotAssigned, c5wdb) ∧
    (updateOrderStatus c5wdb ⟨7, .deliveryAgent⟩ 0 (some .pending) 99).1
      = .updated ∧
    (findById (updateOrderStatus c5wdb ⟨7, .deliveryAgent⟩ 0
        (some .pending) 99).2.orders 0).map Order.orderStatus
      = some .pending ∧
    updateOrderStatusRev2 c5wdb ⟨7, .deliveryAgent⟩ 0 (some .pending) none
      = (.invalidAgentStatus, c5wdb) :=
  ⟨(c5_agent_status_amended c5wdb ⟨7, .deliveryAgent⟩ 1 .pending 99
      { c5order with deliveryAgent := some 9 } none).1
    rfl (by decide) (by decide),
   ((c5_agent_status_amended c5wdb ⟨7, .deliveryAgent⟩ 0 .pending 99
      c5order none).2.1 rfl (by decide) (by decide)).1,
   ((c5_agent_status_amended c5wdb ⟨7, .deliveryAgent⟩ 0 .pending 99
      c5order none).2.1 rfl (by decide) (by decide)).2,
   (c5_agent_status_amended c5wdb ⟨7, .deliveryAgent⟩ 0 .pending 99
      c5order none).2.2 rfl (by decide) (by decide)⟩

/-- Any projection preserved by the status/timestamp rewrite is preserved by
the orderRoutes.js status handler on every stored order. -/
theorem updateOrderStatus_preserves {β : Type} (g : Order → β)
    (hg : ∀ (o : Order) (s2 : OrderStatus) (t : Option ℕ),
      g { o with orderStatus := s2, deliveredAt := t } = g o)
    (db : DB) (actor : Actor) (orderId : ℕ) (req : Option OrderStatus)
    (now j : ℕ) :
    (findById (updateOrderStatus db actor orderId req now).2.orders j).map g
      = (findById db.orders j).map g := by
  rw [updateOrderStatus]
  by_cases hro : actor.role ≠ .admin ∧ actor.role ≠ .deliveryAgent
  · simp [hro]
  · simp only [hro, if_false, ite_false]
    cases hf : findById db.orders orderId with
    | none => rfl
    | some ord =>
      by_cases hag : actor.role = .deliveryAgent
          ∧ ord.deliveryAgent ≠ some actor.id
      · simp [hag]
      · simp only [hag, if_false, ite_false]
        cases req with
        | none => rfl
        | some s =>
          refine findById_updateById_map db.orders orderId j _ g ?_
          intro v hv
          rw [hf] at hv
          cases hv
          split_ifs
          · exact hg ord s (some now)
          · exact hg ord s none
          · exact hg ord s ord.deliveredAt

/-- Any projection preserved by the persisted status/assignedTo rewrite is
preserved by the part_001 status handler on every stored order. -/
theorem updateOrderStatusRev2_preserves {β : Type} (g : Order → β)
    (hg : ∀ (o : Order) (s2 : OrderStatus) (a : Option ℕ),
      g (OrderDoc.persist
        { o.load with orderStatus := s2, assignedTo := a }) = g o)
    (db : DB) (actor : Actor) (orderId : ℕ) (req : Option OrderStatus)
    (asg : Option ℕ) (j : ℕ) :
    (findById (updateOrderStatusRev2 db actor orderId req asg).2.orders j).map g
      = (findById db.orders j).map g := by
  rw [updateOrderStatusRev2]
  by_cases hro : actor.role ≠ .admin ∧ actor.role ≠ .deliveryAgent
  · simp [hro]
  · simp only [hro, if_false, ite_false]
    cases hf : findById db.orders orderId with
    | none => rfl
    | some ord =>
      by_cases hadm : actor.role = .admin
      · simp only [hadm, if_true, ite_true, eq_self_iff_true]
        refine findById_updateById_map db.orders orderId j _ g ?_
        intro v hv
        rw [hf] at hv
        cases hv
        exact hg ord _ _
      · simp only [hadm, if_false, ite_false, Order.load]
        cases req with
        | none => rfl
        | some s =>
          by_cases hs : s = .outForDelivery ∨ s = .delivered ∨ s = .cancelled
          · simp only [hs, if_true, ite_true]
            refine findById_updateById_map db.orders orderId j _ g ?_
            intro v hv
            rw [hf] at hv
            cases hv
            exact hg ord _ _
          · simp [hs]

/-- C6 counterexample: the accept endpoint is invoked by a delivery-agent
actor (not an admin) and sets the order's `deliveryAgent` from unassigned to
agent 7, so the claim that `deliveryAgent` is unchanged under every
operation invoked by a non-admin actor is false. -/
theorem c6_counterexample :
    (⟨7, Role.deliveryAgent⟩ : Actor).role ≠ .admin ∧
    c6res.1 = .accepted ∧
    (findById c6db.orders 0).map Order.deliveryAgent = some none ∧
    (findById c6res.2.orders 0).map Order.deliveryAgent = some (some 7) := by
  decide

/-- The payment webhook preserves `deliveryAgent` on every stored order. -/
theorem paymentWebhook_preserves_deliveryAgent (db : DB) (sigValid : Bool)
    (orderId j : ℕ) (pi : PaymentIntent) :
    (findById (paymentWebhook db sigValid orderId pi).2.orders j).map
        Order.deliveryAgent
      = (findById db.orders j).map Order.deliveryAgent := by
  cases sigValid with
  | false => simp [paymentWebhook]
  | true =>
    cases hf : findById db.orders orderId with
    | none => simp [paymentWebhook, hf]
    | some ord =>
      by_cases hp : ord.isPaid
      · simp [paymentWebhook, hf, hp]
      · cases hr : reduceStock ord.orderItems db.products with
        | error pid => simp [paymentWebhook, hf, hp, hr]
        | ok ps2 =>
          have hstep : paymentWebhook db true orderId pi
              = (.received,
                 { db with
                   products := ps2
                   orders := updateById db.orders orderId
                     (fun _ => paidOrder ord pi) }) := by
            simp [paymentWebhook, hf, hp, hr]
          rw [hstep]
          refine findById_updateById_map db.orders orderId j _
            Order.deliveryAgent ?_
          intro v hv
          rw [hf] at hv
          cases hv
          rfl

/-- C6 (amended): in the staged source `deliveryAgent` has exactly one live
writer — the delivery-agent-only accept route, by which an agent self-assigns
a still-unassigned Pending/Processing order; accept refuses already-assigned
orders, so that path sets the field at most once per order.  The admin
assign-agent route never mutates any state (its handler trips over the
unimported User model and returns a server error; non-admins are rejected by
the role middleware), and the two status-update handlers and the payment
webhook preserve `deliveryAgent` on every stored order. -/
theorem c6_deliveryAgent_amended (db : DB) (actor : Actor)
    (orderId agentId : ℕ) (ord : Order) (a : ℕ)
    (req : Option OrderStatus) (asg : Option ℕ) (now j : ℕ)
    (sigValid : Bool) (pi : PaymentIntent) :
    (findById db.orders orderId = some ord → ord.deliveryAgent = some a →
      (acceptOrder db actor orderId).2 = db) ∧
    ((assignAgent db actor orderId agentId).2 = db) ∧
    (actor.role ≠ .admin →
      assignAgent db actor orderId agentId = (.forbiddenRole, db)) ∧
    ((findById (updateOrderStatus db actor orderId req now).2.orders j).map
        Order.deliveryAgent = (findById db.orders j).map Order.deliveryAgent) ∧
    ((findById (updateOrderStatusRev2 db actor orderId req asg).2.orders
        j).map Order.deliveryAgent
      = (findById db.orders j).map Order.deliveryAgent) ∧
    ((findById (paymentWebhook db sigValid orderId pi).2.orders j).map
        Order.deliveryAgent
      = (findById db.orders j).map Order.deliveryAgent) ∧
    (actor.role = .deliveryAgent → findById db.orders orderId = some ord →
      (ord.orderStatus = .pending ∨ ord.orderStatus = .processing) →
      ord.deliveryAgent = none →
      (findById (acceptOrder db actor orderId).2.orders orderId).map
          Order.deliveryAgent = some (some actor.id)) := by
  refine ⟨?_, ?_, ?_, ?_, ?_, ?_, ?_⟩
  · intro hf ha
    rw [acceptOrder]
    by_cases hrole : actor.role ≠ .deliveryAgent
    · simp [hrole]
    · simp only [hrole, if_false, ite_false]
      rw [hf]
      by_cases hst : ord.orderStatus ≠ .pending
          ∧ ord.orderStatus ≠ .processing
      · simp [hst]
      · have hna : ord.deliveryAgent ≠ none := by
          rw [ha]
          simp
        simp [hst, hna]
  · rw [assignAgent]
    by_cases hadm : actor.role ≠ .admin
    · simp [hadm]
    · simp only [hadm, if_false, ite_false]
      cases findById db.orders orderId <;> rfl
  · intro hadm
    rw [assignAgent]
    simp [hadm]
  · exact updateOrderStatus_preserves Order.deliveryAgent
      (fun o s2 t => rfl) db actor orderId req now j
  · exact updateOrderStatusRev2_preserves Order.deliveryAgent
      (fun o s2 a2 => rfl) db actor orderId req asg j
  · exact paymentWebhook_preserves_deliveryAgent db sigValid orderId j pi
  · intro hrole hf hst hun
    rw [acceptOrder]
    have hrole2 : ¬(actor.role ≠ .deliveryAgent) := by
      rw [hrole]
      simp
    have hst2 : ¬(ord.orderStatus ≠ .pending
        ∧ ord.orderStatus ≠ .processing) := by
      rcases hst with h | h <;> simp [h]
    have hun2 : ¬(ord.deliveryAgent ≠ none) := by
      rw [hun]
      simp
    simp only [hrole2, if_false, ite_false]
    rw [hf]
    simp only [hst2, hun2, if_false, ite_false]
    rw [findById_updateById_self, hf]
    rfl

/-- Witness for the amended C6: accept on an already-assigned order mutates
nothing; assign-agent invoked by an admin returns with the state untouched
and invoked by a customer is Forbidden; an admin status update and a webhook
delivery keep `deliveryAgent`; accept on the unassigned order self-assigns
agent 7. -/
theorem c6_deliveryAgent_amended_witness :
    (acceptOrder c6wdb ⟨7, .deliveryAgent⟩ 0).2 = c6wdb ∧
    (assignAgent c6wdb ⟨1, .admin⟩ 0 7).2 = c6wdb ∧
    assignAgent c6wdb ⟨5, .customer⟩ 1 7 = (.forbiddenRole, c6wdb) ∧
    ((findById (updateOrderStatus c6wdb ⟨1, .admin⟩ 0
        (some .processing) 5).2.orders 0).map Order.deliveryAgent
      = (findById c6wdb.orders 0).map Order.deliveryAgent) ∧
    ((findById (paymentWebhook c6wdb true 0 c6pi).2.orders 0).map
        Order.deliveryAgent
      = (findById c6wdb.orders 0).map Order.deliveryAgent) ∧
    (findById (acceptOrder c6wdb ⟨7, .deliveryAgent⟩ 1).2.orders 1).map
        Order.deliveryAgent = some (some 7) :=
  ⟨(c6_deliveryAgent_amended c6wdb ⟨7, .deliveryAgent⟩ 0 7
      { c6order with deliveryAgent := some 9 } 9 none none 0 0 true c6pi).1
      (by decide) (by decide),
   (c6_deliveryAgent_amended c6wdb ⟨1, .admin⟩ 0 7 c6order 0
      none none 0 0 true c6pi).2.1,
   (c6_deliveryAgent_amended c6wdb ⟨5, .customer⟩ 1 7 c6order 0
      none none 0 0 true c6pi).2.2.1 (by decide),
   (c6_deliveryAgent_amended c6wdb ⟨1, .admin⟩ 0 0 c6order 0
      (some .processing) none 5 0 true c6pi).2.2.2.1,
   (c6_deliveryAgent_amended c6wdb ⟨1, .admin⟩ 0 0 c6order 0
      none none 0 0 true c6pi).2.2.2.2.2.1,
   (c6_deliveryAgent_amended c6wdb ⟨7, .deliveryAgent⟩ 1 0 c6order 0
      none none 0 1 true c6pi).2.2.2.2.2.2 rfl (by decide) (by decide)
      (by decide)⟩

/-- C8 counterexample: through the part_001 revision of the status handler an
admin moves the order into Delivered, yet `deliveredAt` remains unset — the
transition into Delivered did not set the delivery timestamp, so the claim
quantified over every transition of the program is false. -/
theorem c8_counterexample :
    c8res.1 = .updated true ∧
    (findById c8res.2.orders 0).map Order.orderStatus = some .delivered ∧
    (findById c8res.2.orders 0).map Order.deliveredAt = some none := by
  decide

/-- C8 (amended): the deliveredAt discipline holds in the orderRoutes.js
status handler — a successful update to Delivered keeps an already-set
timestamp and stamps the current time only when unset, and a successful
update to any other status clears it — while the part_001 revision of the
handler never reads or writes `deliveredAt` at all. -/
theorem c8_deliveredAt_amended (db : DB) (actor : Actor) (orderId : ℕ)
    (s : OrderStatus) (now : ℕ) (ord : Order)
    (hord : findById db.orders orderId = some ord)
    (hres : (updateOrderStatus db actor orderId (some s) now).1 = .updated) :
    ((findById (updateOrderStatus db actor orderId (some s) now).2.orders
        orderId).map Order.deliveredAt
      = some (if s = .delivered then
          (match ord.deliveredAt with
           | none => some now
           | some t => some t)
        else none)) ∧
    (∀ (db2 : DB) (actor2 : Actor) (oid2 : ℕ) (req2 : Option OrderStatus)
        (asg2 : Option ℕ) (j : ℕ),
      (findById (updateOrderStatusRev2 db2 actor2 oid2 req2 asg2).2.orders
          j).map Order.deliveredAt
        = (findById db2.orders j).map Order.deliveredAt) := by
  constructor
  · rw [updateOrderStatus] at hres ⊢
    by_cases hro : actor.role ≠ .admin ∧ actor.role ≠ .deliveryAgent
    · simp [hro] at hres
    · simp only [hro, if_false, ite_false] at hres ⊢
      rw [hord] at hres ⊢
      by_cases hag : actor.role = .deliveryAgent
          ∧ ord.deliveryAgent ≠ some actor.id
      · simp [hag] at hres
      · simp only [hag, if_false, ite_false] at hres ⊢
        rw [findById_updateById_self, hord]
        by_cases hs : s = .delivered
        · cases hd : ord.deliveredAt with
          | none => simp [hs, hd]
          | some t => simp [hs, hd]
        · cases hd : ord.deliveredAt with
          | none => simp [hs, hd]
          | some t => simp [hs, hd]
  · intro db2 actor2 oid2 req2 asg2 j
    exact updateOrderStatusRev2_preserves Order.deliveredAt
      (fun o s2 a2 => rfl) db2 actor2 oid2 req2 asg2 j

/-- Witness for the amended C8: a second Delivered update keeps the old
timestamp 42; a Processing update clears it; the part_001 revision leaves it
untouched. -/
theorem c8_deliveredAt_amended_witness :
    ((findById (updateOrderStatus c8wdb ⟨1, .admin⟩ 0
        (some .delivered) 99).2.orders 0).map Order.deliveredAt
      = some (some 42)) ∧
    ((findById (updateOrderStatus c8wdb ⟨1, .admin⟩ 0
        (some .processing) 99).2.orders 0).map Order.deliveredAt
      = some none) ∧
    ((findById (updateOrderStatusRev2 c8wdb ⟨1, .admin⟩ 0
        (some .processing) none).2.orders 0).map Order.deliveredAt
      = (findById c8wdb.orders 0).map Order.deliveredAt) :=
  ⟨(c8_deliveredAt_amended c8wdb ⟨1, .admin⟩ 0 .delivered 99
      { c8order with deliveredAt := some 42 } (by decide) (by decide)).1,
   (c8_deliveredAt_amended c8wdb ⟨1, .admin⟩ 0 .processing 99
      { c8order with deliveredAt := some 42 } (by decide) (by decide)).1,
   (c8_deliveredAt_amended c8wdb ⟨1, .admin⟩ 0 .processing 99
      { c8order with deliveredAt := some 42 } (by decide) (by decide)).2
     c8wdb ⟨1, .admin⟩ 0 (some .processing) none 0⟩

end DeliveryPlatform
